import Mathlib

/-!
Verification of the scoring-and-alerting engine of the email urgency /
social-sentiment analysis system: weighted keyword matching with body/subject
caps (src/urgency_detector.py, src/config.py, src/email_analyzer.py),
sliding-window and rolling-average alert detection (src/alert_system.py),
and ranking (main.py).  Python dictionaries are embedded as association
lists in insertion order, floats as rationals, pandas NaN as `Option`.
-/

namespace UrgencyDetection


/-- Character class of the Python regex `\s` over ASCII, as used by
`re.sub(r"\s+", " ", text)` in `EmailAnalyzer.preprocess_text`. -/
def pyIsSpace (c : Char) : Bool :=
  c = ' ' || c = '\t' || c = '\n' || c = '\r' || c = '\x0b' || c = '\x0c'

/-- Replace each maximal run of whitespace by a single space
(`re.sub(r"\s+", " ", text)`). -/
def collapseWs : List Char → List Char
  | [] => []
  | c :: rest =>
    if pyIsSpace c then ' ' :: collapseWs (rest.dropWhile pyIsSpace)
    else c :: collapseWs rest
termination_by l => l.length
decreasing_by
  · simpa [Nat.lt_succ_iff] using (List.dropWhile_sublist pyIsSpace).length_le
  · simp

/-- Python `str.strip()` after whitespace collapsing: drop leading and
trailing whitespace. -/
def stripSpaces (l : List Char) : List Char :=
  ((l.dropWhile pyIsSpace).reverse.dropWhile pyIsSpace).reverse

/-- Python `str.lower()`. -/
def lowerStr (s : String) : String :=
  String.mk (s.toList.map Char.toLower)

/-- `EmailAnalyzer.preprocess_text`: lowercase, collapse whitespace runs to a
single space, strip the ends.  (The non-string input branch returning `""` is
outside this embedding: inputs here are strings.) -/
def preprocess_text (text : String) : String :=
  String.mk (stripSpaces (collapseWs ((lowerStr text).toList)))

/-- Python substring containment `needle in haystack` over character lists. -/
def containsSub (needle : List Char) : List Char → Bool
  | [] => needle.isEmpty
  | c :: rest => needle.isPrefixOf (c :: rest) || containsSub needle rest

/-- Python `needle in haystack` for strings. -/
def strContains (haystack needle : String) : Bool :=
  containsSub needle.toList haystack.toList

/-- `UrgencyDetector.calculate_keyword_score`: lowercase the text once, then
for each `(keyword, weight)` entry of the dictionary (in insertion order) add
the weight and record the keyword when the keyword occurs in the text. -/
def calculate_keyword_score (text : String) (keywords_dict : List (String × Nat)) :
    Nat × List String :=
  let text_lower := lowerStr text
  keywords_dict.foldl
    (fun acc kv =>
      if strContains text_lower kv.1 then (acc.1 + kv.2, acc.2 ++ [kv.1]) else acc)
    (0, [])

/-- Critical keyword table of `config.URGENCY_KEYWORDS` (weight 15). -/
def CRITICAL_KEYWORDS : List (String × Nat) :=
  [("urgent", 15), ("asap", 15), ("immediately", 15), ("emergency", 15),
   ("critical", 15), ("now", 15)]

/-- High keyword table of `config.URGENCY_KEYWORDS` (weight 12). -/
def HIGH_KEYWORDS : List (String × Nat) :=
  [("soon", 12), ("quickly", 12), ("time-sensitive", 12), ("deadline", 12),
   ("urgent need", 12), ("expire", 12), ("expires", 12), ("expiring", 12),
   ("time constraint", 12)]

/-- Medium keyword table of `config.URGENCY_KEYWORDS` (weight 8). -/
def MEDIUM_KEYWORDS : List (String × Nat) :=
  [("please", 8), ("need", 8), ("important", 8), ("waiting", 8), ("required", 8),
   ("necessary", 8), ("response", 8), ("follow up", 8), ("follow-up", 8)]

/-- `config.URGENCY_KEYWORDS`: the three category tables in insertion order. -/
def URGENCY_KEYWORDS : List (String × List (String × Nat)) :=
  [("critical", CRITICAL_KEYWORDS), ("high", HIGH_KEYWORDS), ("medium", MEDIUM_KEYWORDS)]

/-- `config.TIME_KEYWORDS` (weight 12). -/
def TIME_KEYWORDS : List (String × Nat) :=
  [("today", 12), ("by eod", 12), ("end of day", 12), ("within 24 hours", 12),
   ("by 5pm", 12), ("by 5 pm", 12), ("this afternoon", 12), ("this morning", 12),
   ("by noon", 12), ("within hours", 12), ("within hour", 12)]

/-- `config.ACTION_KEYWORDS` (weight 8). -/
def ACTION_KEYWORDS : List (String × Nat) :=
  [("call me", 8), ("need response", 8), ("please respond", 8), ("get back", 8),
   ("respond asap", 8), ("waiting for", 8), ("need to know", 8), ("let me know", 8),
   ("confirm", 8), ("approval needed", 8)]

/-- `config.MAX_URGENCY_SCORE`. -/
def MAX_URGENCY_SCORE : Nat := 100

/-- `UrgencyDetector.contains_time_constraint`: preprocess, score against the
time keywords, report whether the score is positive. -/
def contains_time_constraint (text : String) : Bool × Nat × List String :=
  let r := calculate_keyword_score (preprocess_text text) TIME_KEYWORDS
  (decide (0 < r.1), r.1, r.2)

/-- `UrgencyDetector.contains_action_words`: preprocess, score against the
action keywords, report whether the score is positive. -/
def contains_action_words (text : String) : Bool × Nat × List String :=
  let r := calculate_keyword_score (preprocess_text text) ACTION_KEYWORDS
  (decide (0 < r.1), r.1, r.2)

/-- Insertion into a Python `set`, modelled as an insertion-ordered list with
no duplicates. -/
def setInsert (s : List String) (k : String) : List String :=
  if k ∈ s then s else s ++ [k]

/-- Python `set.update`, over the insertion-ordered model. -/
def setUpdate (s : List String) (ks : List String) : List String :=
  ks.foldl setInsert s

/-- `UrgencyDetector.calculate_urgency_score`: sum keyword scores of the
preprocessed body over the three urgency categories plus time and action
keywords, cap at 70; same for the subject, cap at 30; final score is the sum
capped at `MAX_URGENCY_SCORE`; keyword list is body keywords followed by
subject keywords tagged `" (subject)"`. -/
def calculate_urgency_score (subject body : String) : Nat × List String :=
  let body_clean := preprocess_text body
  let b1 := URGENCY_KEYWORDS.foldl
    (fun acc cat =>
      let r := calculate_keyword_score body_clean cat.2
      (acc.1 + r.1, setUpdate acc.2 r.2))
    (0, ([] : List String))
  let t := contains_time_constraint body
  let b2 : Nat × List String := (b1.1 + t.2.1, setUpdate b1.2 t.2.2)
  let a := contains_action_words body
  let b3 : Nat × List String := (b2.1 + a.2.1, setUpdate b2.2 a.2.2)
  let body_score := min b3.1 70
  let subject_clean := preprocess_text subject
  let s1 := URGENCY_KEYWORDS.foldl
    (fun acc cat =>
      let r := calculate_keyword_score subject_clean cat.2
      (acc.1 + r.1, setUpdate acc.2 r.2))
    (0, ([] : List String))
  let rt := calculate_keyword_score subject_clean TIME_KEYWORDS
  let s2 : Nat × List String := (s1.1 + rt.1, setUpdate s1.2 rt.2)
  let ra := calculate_keyword_score subject_clean ACTION_KEYWORDS
  let s3 : Nat × List String := (s2.1 + ra.1, setUpdate s2.2 ra.2)
  let subject_bonus := min s3.1 30
  let final_score := min (body_score + subject_bonus) MAX_URGENCY_SCORE
  (final_score, b3.2 ++ s3.2.map (fun kw => kw ++ " (subject)"))

/-- Tier thresholds, `config.URGENCY_THRESHOLDS`. -/
structure UrgencyThresholds where
  critical : Nat
  high : Nat
  medium : Nat
  low : Nat
deriving DecidableEq

/-- `config.URGENCY_THRESHOLDS`: critical 76, high 51, medium 26, low 0. -/
def URGENCY_THRESHOLDS : UrgencyThresholds := ⟨76, 51, 26, 0⟩

/-- `UrgencyDetector.classify_urgency_level`, with `self.thresholds` made an
explicit argument (the constructor stores `config.URGENCY_THRESHOLDS` there). -/
def classify_urgency_level (thresholds : UrgencyThresholds) (score : Nat) : String :=
  if thresholds.critical ≤ score then "Critical"
  else if thresholds.high ≤ score then "High"
  else if thresholds.medium ≤ score then "Medium"
  else "Low"

/-- The union of all five keyword tables of the configuration, as one
association list; its keys are pairwise distinct (proved in C1's theorem). -/
def allKeywordTables : List (String × Nat) :=
  CRITICAL_KEYWORDS ++ HIGH_KEYWORDS ++ MEDIUM_KEYWORDS ++ TIME_KEYWORDS ++ ACTION_KEYWORDS

/-- Python dict assignment `d[k] = v` on the association-list model of a dict:
replace the value at an existing key, otherwise append a new entry at the end
(insertion order).  Duplicating a phrase entry of a keyword table goes through
this operation, since the tables are Python dicts. -/
def dictInsert : List (String × Nat) → String → Nat → List (String × Nat)
  | [], k, v => [(k, v)]
  | kv :: rest, k, v =>
    if kv.1 = k then (k, v) :: rest else kv :: dictInsert rest k v

/-- One alert dictionary built by `detect_negative_spike`. -/
structure SpikeAlert where
  alert_type : String
  severity : String
  start_index : Nat
  end_index : Nat
  negative_count : Nat
  negative_ratio : ℚ
  avg_compound_score : ℚ
deriving DecidableEq

/-- pandas `Series.mean` of a list of numbers. -/
def listMean (l : List ℚ) : ℚ := l.sum / l.length

/-- The window `df.iloc[i:i+w]` of a score column. -/
def windowSlice (scores : List ℚ) (i w : Nat) : List ℚ := (scores.drop i).take w

/-- Loop of `SentimentAlertSystem.detect_negative_spike` over the
`compound_score` column: for each window position, count scores strictly below
the threshold, and emit one alert when `count / window_size` reaches the
minimum ratio.  `List.range (length + 1 - w)` is Python's
`range(len(df) - window_size + 1)` (empty when the subtraction is negative). -/
def detect_negative_spike_core (scores : List ℚ) (window_size : Nat)
    (negative_threshold min_ratio : ℚ) : List SpikeAlert :=
  (List.range (scores.length + 1 - window_size)).foldl
    (fun alerts i =>
      let window := windowSlice scores i window_size
      let negative_count := (window.filter (fun x => x < negative_threshold)).length
      let negative_ratio : ℚ := negative_count / window_size
      if min_ratio ≤ negative_ratio then
        alerts ++ [{ alert_type := "Negative Spike Detected", severity := "High",
                     start_index := i, end_index := i + window_size - 1,
                     negative_count := negative_count, negative_ratio := negative_ratio,
                     avg_compound_score := listMean window }]
      else alerts)
    []

/-- Row of the analyzed-results frame as ranked by `main.save_results`:
the urgency score and the (ordered, comparable) timestamp. -/
structure EmailRow where
  urgency_score : Nat
  timestamp : Int
deriving DecidableEq

/-- Sort key of
`sort_values(by=["urgency_score", "timestamp"], ascending=[False, True])`:
urgency score descending, then timestamp ascending. -/
def rowLE (a b : EmailRow) : Bool :=
  decide (b.urgency_score < a.urgency_score) ||
    (decide (a.urgency_score = b.urgency_score) && decide (a.timestamp ≤ b.timestamp))

/-- The sort performed by `save_results`.  pandas sorts multiple keys with
`numpy.lexsort`, a stable sort; `List.mergeSort` is the stable sort here. -/
def sortResults (rows : List EmailRow) : List EmailRow := rows.mergeSort rowLE

/-- `save_results` then assigns `priority_rank = range(1, len(results_df) + 1)`
positionally over the sorted frame. -/
def rankResults (rows : List EmailRow) : List (EmailRow × Nat) :=
  (sortResults rows).zip (List.range' 1 rows.length)

/-- Demonstration batch for the ranking witness: a top score followed by a
score tie broken by timestamp (already in sorted order, so the stable sort
fixes it). -/
def demoRows : List EmailRow := [⟨80, 3⟩, ⟨50, 2⟩, ⟨50, 7⟩]

/-- One alert dictionary built by `detect_sentiment_drop`. -/
structure DropAlert where
  alert_type : String
  severity : String
  timestamp : ℚ
  previous_avg : ℚ
  current_avg : ℚ
  drop_magnitude : ℚ
deriving DecidableEq

/-- pandas `rolling(window=w, center=False).mean()` over a score column:
entry `j` is the mean of the `w` values ending at `j`, and NaN (here `none`)
while fewer than `w` values have been seen (`min_periods` defaults to the
window size). -/
def rollingMean (scores : List ℚ) (w : Nat) : List (Option ℚ) :=
  (List.range scores.length).map fun j =>
    if w ≤ j + 1 then some (listMean ((scores.drop (j + 1 - w)).take w)) else none

/-- pandas `Series.mean()` with its default `skipna=True`: the mean of the
non-NaN entries, and NaN (`none`) when every entry is NaN. -/
def nanMean (l : List (Option ℚ)) : Option ℚ :=
  let vals := l.filterMap id
  if vals.isEmpty then none else some (listMean vals)

/-- `df.sort_values(time_column)` over (timestamp, score) rows.  pandas'
single-key sort leaves the order of equal timestamps unspecified; the stable
`mergeSort` is one deterministic refinement of it. -/
def timeSorted (series : List (ℚ × ℚ)) : List (ℚ × ℚ) :=
  series.mergeSort (fun a b => decide (a.1 ≤ b.1))

/-- Body of the detection loop of `detect_sentiment_drop`, at index `i` of
the time-sorted frame `df` with rolling-average column `rolling_avg`
(window = 5): compare the skipna mean of the rolling averages over
`[i-5, i)` with the one over `[i, i+5)` and append one alert when the first
minus the second reaches `drop_threshold`.  A NaN mean compares false, as
float comparison with NaN does, appending nothing. -/
def dropEmit (df : List (ℚ × ℚ)) (rolling_avg : List (Option ℚ)) (drop_threshold : ℚ)
    (alerts : List DropAlert) (i : Nat) : List DropAlert :=
  let prev_avg := nanMean ((rolling_avg.drop (i - 5)).take 5)
  let curr_avg := nanMean ((rolling_avg.drop i).take 5)
  match prev_avg, curr_avg with
  | some p, some c =>
    if drop_threshold ≤ p - c then
      alerts ++ [{ alert_type := "Sentiment Drop Detected", severity := "Medium",
                   timestamp := (df.getD i (0, 0)).1,
                   previous_avg := p, current_avg := c, drop_magnitude := p - c }]
    else alerts
  | _, _ => alerts

/-- `SentimentAlertSystem.detect_sentiment_drop` after its column checks:
sort by timestamp; with fewer than `2 * window` rows (window = 5) return `[]`;
otherwise run the detection loop for each `i` in `range(window, N - window)`. -/
def detect_sentiment_drop_core (series : List (ℚ × ℚ)) (drop_threshold : ℚ) :
    List DropAlert :=
  let df := timeSorted series
  let window : Nat := 5
  if df.length < window * 2 then []
  else
    let rolling_avg := rollingMean (df.map Prod.snd) window
    (List.range' window (df.length - window - window)).foldl
      (dropEmit df rolling_avg drop_threshold) []

/-- DataFrame columns read by the alert system; `none` models an absent
column, and present columns are aligned row-wise. -/
structure SFrame where
  compound_scores : Option (List ℚ)
  timestamps : Option (List ℚ)
  platforms : Option (List String)
  sentiments : Option (List String)

/-- `SentimentAlertSystem.detect_sentiment_drop`: `[]` when the timestamp or
`compound_score` column is missing, else the core loop over the
(timestamp, score) rows. -/
def detect_sentiment_drop (df : SFrame) (drop_threshold : ℚ) : List DropAlert :=
  match df.timestamps, df.compound_scores with
  | some ts, some sc => detect_sentiment_drop_core (ts.zip sc) drop_threshold
  | _, _ => []

/-- Python `x or default` for an optional integer parameter: `None` and `0`
are falsy and select the default. -/
def orDefaultNat (x : Option Nat) (d : Nat) : Nat :=
  match x with
  | none => d
  | some v => if v = 0 then d else v

/-- Python `x or default` for an optional float parameter: `None` and `0.0`
are falsy and select the default. -/
def orDefaultRat (x : Option ℚ) (d : ℚ) : ℚ :=
  match x with
  | none => d
  | some v => if v = 0 then d else v

/-- The `spike_window`, `negative_threshold` and `min_negative_ratio` entries
of `ALERT_SETTINGS` (that settings dict lives in a config module outside this
tree; the alert functions read exactly these three keys). -/
structure AlertSettings where
  spike_window : Nat
  negative_threshold : ℚ
  min_negative_ratio : ℚ

/-- `SentimentAlertSystem.detect_negative_spike`: `[]` when the
`compound_score` column is missing; otherwise the window size is
`window_size or self.config["spike_window"]` and the loop runs with the
configured threshold and minimum ratio. -/
def detect_negative_spike (df : SFrame) (window_size : Option Nat) (cfg : AlertSettings) :
    List SpikeAlert :=
  match df.compound_scores with
  | none => []
  | some scores =>
      detect_negative_spike_core scores (orDefaultNat window_size cfg.spike_window)
        cfg.negative_threshold cfg.min_negative_ratio

/-- `SentimentAlertSystem.flag_high_priority_comments`, keeping the
compound-score column of the returned frame: empty when the column is
missing; otherwise the scores strictly below
`threshold or self.config["negative_threshold"]`, sorted ascending. -/
def flag_high_priority_comments (df : SFrame) (threshold : Option ℚ) (cfg : AlertSettings) :
    List ℚ :=
  match df.compound_scores with
  | none => []
  | some scores =>
      let thr := orDefaultRat threshold cfg.negative_threshold
      (scores.filter (fun x => decide (x < thr))).mergeSort (fun a b => decide (a ≤ b))

/-- One alert dictionary built by `analyze_platform_alerts`. -/
structure PlatformAlert where
  alert_type : String
  severity : String
  platform : String
  negative_percentage : ℚ
  negative_count : Nat
  total_count : Nat
deriving DecidableEq

/-- pandas `Series.unique()`: distinct values in order of first appearance. -/
def uniqueInOrder (l : List String) : List String :=
  l.foldl (fun acc x => if x ∈ acc then acc else acc ++ [x]) []

/-- `SentimentAlertSystem.analyze_platform_alerts`: `[]` without both the
platform and sentiment columns; otherwise, for each distinct platform with at
least 5 rows, emit one alert when the percentage of its rows with sentiment
"Negative" reaches the threshold. -/
def analyze_platform_alerts (df : SFrame) (negative_threshold_pct : ℚ) : List PlatformAlert :=
  match df.platforms, df.sentiments with
  | some ps, some ss =>
      let rows := ps.zip ss
      (uniqueInOrder ps).foldl
        (fun alerts platform =>
          let platform_rows := rows.filter (fun r => decide (r.1 = platform))
          let total := platform_rows.length
          if total < 5 then alerts
          else
            let negative_count :=
              (platform_rows.filter (fun r => decide (r.2 = "Negative"))).length
            let negative_pct := (negative_count : ℚ) / total * 100
            if negative_threshold_pct ≤ negative_pct then
              alerts ++ [{ alert_type := "Platform Alert", severity := "Medium",
                           platform := platform, negative_percentage := negative_pct,
                           negative_count := negative_count, total_count := total }]
            else alerts)
        []
  | _, _ => []

/-- An entry of the report's alert list: one of the three alert dict shapes. -/
inductive AlertEvent where
  | spike (a : SpikeAlert)
  | drop (a : DropAlert)
  | platform (a : PlatformAlert)
deriving DecidableEq

/-- The `severity` entry of an alert dictionary. -/
def AlertEvent.severity : AlertEvent → String
  | .spike a => a.severity
  | .drop a => a.severity
  | .platform a => a.severity

/-- The report of `generate_alert_report` (the wall-clock `timestamp` entry is
omitted; `high_priority_comments` is kept as the flagged score column). -/
structure AlertReport where
  total_analyzed : Nat
  alerts : List AlertEvent
  high_priority_count : Nat
  alert_count : Nat
  has_critical_alerts : Bool

/-- `SentimentAlertSystem.generate_alert_report` with
`include_high_priority=True`: spike alerts, then drop alerts when a timestamp
column exists, then platform alerts when a platform column exists;
`alert_count` is the number of alerts and `has_critical_alerts` whether any
alert has severity "High".  `total_analyzed = len(df)` is modelled by the
score-column row count. -/
def generate_alert_report (df : SFrame) (cfg : AlertSettings) : AlertReport :=
  let spikes := (detect_negative_spike df none cfg).map AlertEvent.spike
  let drops :=
    if df.timestamps.isSome then (detect_sentiment_drop df (3/10)).map AlertEvent.drop else []
  let plats :=
    if df.platforms.isSome then (analyze_platform_alerts df 50).map AlertEvent.platform else []
  let alerts := spikes ++ drops ++ plats
  { total_analyzed := (df.compound_scores.getD []).length,
    alerts := alerts,
    high_priority_count := (flag_high_priority_comments df none cfg).length,
    alert_count := alerts.length,
    has_critical_alerts := alerts.any (fun a => a.severity == "High") }

/-- `main.save_results`: with the timestamp column present, sort and rank;
with it missing, `sort_values(by=["urgency_score", "timestamp"])` raises a
generic missing-column `KeyError`, which the surrounding `except Exception`
handler turns into a `None` return. -/
def save_results (hasTimestampColumn : Bool) (rows : List EmailRow) :
    Option (List (EmailRow × Nat)) :=
  if hasTimestampColumn then some (rankResults rows) else none

/-- State built by `UrgencyDetector.__init__`: the stored thresholds (the
analyzer and the keyword-table fields are module constants, elided here). -/
structure UrgencyDetectorState where
  thresholds : UrgencyThresholds
deriving DecidableEq

/-- The body of `UrgencyDetector.__init__`, generalized over the threshold
table it stores (the source always stores the module constant
`URGENCY_THRESHOLDS`): a plain assignment, with no validation and no raise. -/
def UrgencyDetector.initWith (t : UrgencyThresholds) : UrgencyDetectorState := ⟨t⟩

/-- `UrgencyDetector.__init__` exactly as the source runs it. -/
def UrgencyDetector.init : UrgencyDetectorState :=
  UrgencyDetector.initWith URGENCY_THRESHOLDS

/-- A threshold table with inverted (strictly decreasing) lower bounds. -/
def invertedThresholds : UrgencyThresholds := ⟨10, 51, 80, 0⟩

/-- The skipna mean of the rolling averages (those defined; positions below
window-1 = 4 carry none) over positions `[i-5, i)` of the time-sorted score
column. -/
def prevRollAvg (series : List (ℚ × ℚ)) (i : Nat) : ℚ :=
  listMean
    ((((rollingMean ((timeSorted series).map Prod.snd) 5).drop (i - 5)).take 5).filterMap id)

/-- The mean of the rolling averages over positions `[i, i+5)` of the
time-sorted score column (all defined for `i ≥ 4`). -/
def currRollAvg (series : List (ℚ × ℚ)) (i : Nat) : ℚ :=
  listMean
    ((((rollingMean ((timeSorted series).map Prod.snd) 5).drop i).take 5).filterMap id)

/-- Demonstration series for the drop witness: exactly ten points. -/
def tenSeries : List (ℚ × ℚ) :=
  [(0, 0), (1, 0), (2, 0), (3, 0), (4, 0), (5, 0), (6, 0), (7, 0), (8, 0), (9, 0)]

/-- One-row frame for the C9 witness. -/
def demoFrame : SFrame := ⟨some [-1], none, none, none⟩

/-- Settings for the C9 witness: window 1, thresholds 0. -/
def demoSettings : AlertSettings := ⟨1, 0, 0⟩

/-- The alert the demo frame produces. -/
def demoSpikeAlert : SpikeAlert :=
  { alert_type := "Negative Spike Detected", severity := "High", start_index := 0,
    end_index := 0, negative_count := 1, negative_ratio := 1, avg_compound_score := -1 }

/-- The score component of `calculate_keyword_score` is the sum of the weights
of the matched entries. -/
theorem calculate_keyword_score_fst (text : String) (d : List (String × Nat)) :
    (calculate_keyword_score text d).1 =
      ((d.filter (fun kv => strContains (lowerStr text) kv.1)).map (fun kv => kv.2)).sum := by
  suffices h : ∀ (l : List (String × Nat)) (s0 : Nat) (ks0 : List String),
      (l.foldl
        (fun acc kv =>
          if strContains (lowerStr text) kv.1 then (acc.1 + kv.2, acc.2 ++ [kv.1]) else acc)
        (s0, ks0)).1 =
        s0 + ((l.filter (fun kv => strContains (lowerStr text) kv.1)).map (fun kv => kv.2)).sum by
    simpa [calculate_keyword_score] using h d 0 []
  intro l
  induction l with
  | nil => simp
  | cons kv rest ih =>
    intro s0 ks0
    by_cases hkv : strContains (lowerStr text) kv.1
    · simp [hkv, ih, Nat.add_assoc]
    · simp [hkv, ih]

/-- Keyword scores add over concatenation of tables. -/
theorem calculate_keyword_score_append (text : String) (d₁ d₂ : List (String × Nat)) :
    (calculate_keyword_score text (d₁ ++ d₂)).1 =
      (calculate_keyword_score text d₁).1 + (calculate_keyword_score text d₂).1 := by
  simp [calculate_keyword_score_fst, List.filter_append]

/-- C1: for every subject and body, `calculate_urgency_score` returns
`min (min bodySum 70 + min subjectSum 30) 100` where `bodySum` and
`subjectSum` are the keyword-weight sums of the normalized body and subject
over the union of the critical/high/medium, time and action keyword tables
(whose phrases are pairwise distinct, so the concatenation is that union);
consequently the urgency score always lies in [0, 100]. -/
theorem urgency_score_capped_formula (subject body : String) :
    (calculate_urgency_score subject body).1 =
      min (min (calculate_keyword_score (preprocess_text body) allKeywordTables).1 70 +
            min (calculate_keyword_score (preprocess_text subject) allKeywordTables).1 30)
        100
    ∧ (calculate_urgency_score subject body).1 ≤ 100
    ∧ (allKeywordTables.map Prod.fst).Nodup := by
  refine ⟨?_, ?_, by decide⟩
  · simp only [calculate_urgency_score, URGENCY_KEYWORDS, contains_time_constraint,
      contains_action_words, allKeywordTables, List.foldl_cons, List.foldl_nil,
      calculate_keyword_score_append, MAX_URGENCY_SCORE]
    omega
  · simp only [calculate_urgency_score, MAX_URGENCY_SCORE]
    omega

/-- C3: `classify_urgency_level` with the configured thresholds is total over
[0,100] with contiguous tier boundaries: 0-25 Low, 26-50 Medium, 51-75 High,
76-100 Critical, and in particular at the boundary scores 25, 26, 50, 51, 75,
76 and 100. -/
theorem classify_tier_boundaries :
    (∀ s : Nat,
      (s ≤ 25 → classify_urgency_level URGENCY_THRESHOLDS s = "Low") ∧
      (26 ≤ s → s ≤ 50 → classify_urgency_level URGENCY_THRESHOLDS s = "Medium") ∧
      (51 ≤ s → s ≤ 75 → classify_urgency_level URGENCY_THRESHOLDS s = "High") ∧
      (76 ≤ s → classify_urgency_level URGENCY_THRESHOLDS s = "Critical")) ∧
    classify_urgency_level URGENCY_THRESHOLDS 25 = "Low" ∧
    classify_urgency_level URGENCY_THRESHOLDS 26 = "Medium" ∧
    classify_urgency_level URGENCY_THRESHOLDS 50 = "Medium" ∧
    classify_urgency_level URGENCY_THRESHOLDS 51 = "High" ∧
    classify_urgency_level URGENCY_THRESHOLDS 75 = "High" ∧
    classify_urgency_level URGENCY_THRESHOLDS 76 = "Critical" ∧
    classify_urgency_level URGENCY_THRESHOLDS 100 = "Critical" := by
  refine ⟨fun s => ⟨?_, ?_, ?_, ?_⟩, by decide, by decide, by decide, by decide,
    by decide, by decide, by decide⟩ <;>
    intros <;>
    simp only [classify_urgency_level, URGENCY_THRESHOLDS] <;>
    split_ifs <;> first | rfl | omega

/-- Witness for C3 at score 40, inside the Medium band. -/
theorem classify_tier_boundaries_witness :
    classify_urgency_level URGENCY_THRESHOLDS 40 = "Medium" :=
  (classify_tier_boundaries.1 40).2.1 (by decide) (by decide)

/-- Re-inserting an entry that is already present, with its same weight,
leaves a dict (keys pairwise distinct) unchanged. -/
theorem dictInsert_mem_eq (d : List (String × Nat)) (p : String) (w : Nat)
    (hnd : (d.map Prod.fst).Nodup) (hmem : (p, w) ∈ d) :
    dictInsert d p w = d := by
  induction d with
  | nil => cases hmem
  | cons kv rest ih =>
    simp only [List.map_cons, List.nodup_cons, List.mem_map] at hnd
    rcases List.mem_cons.mp hmem with h | h
    · subst h
      simp [dictInsert]
    · have hne : kv.1 ≠ p := by
        intro he
        exact hnd.1 ⟨(p, w), h, he.symm⟩
      simp only [dictInsert, if_neg hne]
      rw [ih hnd.2 h]

/-- C4: the keyword score depends only on which table entries match: it is
congruent in the per-phrase match predicate (a phrase contributes once however
often it occurs), equals the sum of the weights of the matched entries,
is unchanged by re-inserting an existing phrase with its identical weight into
the dict, and is invariant under permutation of the table's entries. -/
theorem keyword_score_presence_semantics :
    (∀ (t₁ t₂ : String) (d : List (String × Nat)),
      (∀ kv ∈ d, strContains (lowerStr t₁) kv.1 = strContains (lowerStr t₂) kv.1) →
      calculate_keyword_score t₁ d = calculate_keyword_score t₂ d) ∧
    (∀ (t : String) (d : List (String × Nat)),
      (calculate_keyword_score t d).1 =
        ((d.filter (fun kv => strContains (lowerStr t) kv.1)).map (fun kv => kv.2)).sum) ∧
    (∀ (t : String) (d : List (String × Nat)) (p : String) (w : Nat),
      (d.map Prod.fst).Nodup → (p, w) ∈ d →
      calculate_keyword_score t (dictInsert d p w) = calculate_keyword_score t d) ∧
    (∀ (t : String) (d₁ d₂ : List (String × Nat)), d₁.Perm d₂ →
      (calculate_keyword_score t d₁).1 = (calculate_keyword_score t d₂).1) := by
  refine ⟨?_, calculate_keyword_score_fst, ?_, ?_⟩
  · intro t₁ t₂ d h
    simp only [calculate_keyword_score]
    exact List.foldl_ext _ _ _ fun acc kv hkv => by rw [h kv hkv]
  · intro t d p w hnd hmem
    rw [dictInsert_mem_eq d p w hnd hmem]
  · intro t d₁ d₂ hperm
    rw [calculate_keyword_score_fst, calculate_keyword_score_fst]
    exact ((hperm.filter _).map _).sum_eq

/-- Witness for C4: permutation invariance and duplicate-insertion invariance
at a concrete text and table. -/
theorem keyword_score_presence_semantics_witness :
    (calculate_keyword_score "urgent asap" [("urgent", 15), ("asap", 15)]).1 =
      (calculate_keyword_score "urgent asap" [("asap", 15), ("urgent", 15)]).1 ∧
    calculate_keyword_score "urgent asap" (dictInsert [("urgent", 15), ("asap", 15)] "asap" 15) =
      calculate_keyword_score "urgent asap" [("urgent", 15), ("asap", 15)] :=
  ⟨keyword_score_presence_semantics.2.2.2 "urgent asap" _ _ (by decide),
   keyword_score_presence_semantics.2.2.1 "urgent asap" _ "asap" 15 (by decide) (by decide)⟩

/-- Fold of an emit-or-skip loop body: appending `f i` exactly when `p i`
holds equals mapping `f` over the qualifying indices. -/
theorem foldl_emit_eq_filter_map {ι α : Type _} (p : ι → Prop) [DecidablePred p] (f : ι → α) :
    ∀ (l : List ι) (init : List α),
      l.foldl (fun acc i => if p i then acc ++ [f i] else acc) init =
        init ++ (l.filter (fun i => decide (p i))).map f := by
  intro l
  induction l with
  | nil => simp
  | cons j rest ih =>
    intro init
    by_cases hj : p j
    · simp [hj, ih, List.append_assoc]
    · simp [hj, ih]

/-- Equation of the spike-detection loop: the output maps the alert builder
over the qualifying window positions. -/
theorem detect_negative_spike_core_eq (scores : List ℚ) (w : Nat) (negThr minRatio : ℚ) :
    detect_negative_spike_core scores w negThr minRatio =
      ((List.range (scores.length + 1 - w)).filter
          (fun i => decide (minRatio ≤
            (((windowSlice scores i w).filter (fun x => x < negThr)).length : ℚ) / w))).map
        (fun i =>
          { alert_type := "Negative Spike Detected", severity := "High",
            start_index := i, end_index := i + w - 1,
            negative_count := ((windowSlice scores i w).filter (fun x => x < negThr)).length,
            negative_ratio :=
              (((windowSlice scores i w).filter (fun x => x < negThr)).length : ℚ) / w,
            avg_compound_score := listMean (windowSlice scores i w) }) := by
  unfold detect_negative_spike_core
  exact foldl_emit_eq_filter_map _ _ _ []

/-- C5: `detect_negative_spike` slides a window of the given size with step 1
over positions `0 .. N - windowSize` inclusive, and emits exactly one Spike
event at a position if and only if the fraction of window values strictly
below the threshold reaches `min_ratio`; the event carries the window bounds,
the count, the ratio and the window mean, and overlapping qualifying windows
emit independently (the output is the map over all qualifying positions). -/
theorem spike_detection_characterization (scores : List ℚ) (w : Nat)
    (negThr minRatio : ℚ) (_hw : 0 < w) :
    detect_negative_spike_core scores w negThr minRatio =
      ((List.range (scores.length + 1 - w)).filter
          (fun i => decide (minRatio ≤
            (((windowSlice scores i w).filter (fun x => x < negThr)).length : ℚ) / w))).map
        (fun i =>
          { alert_type := "Negative Spike Detected", severity := "High",
            start_index := i, end_index := i + w - 1,
            negative_count := ((windowSlice scores i w).filter (fun x => x < negThr)).length,
            negative_ratio :=
              (((windowSlice scores i w).filter (fun x => x < negThr)).length : ℚ) / w,
            avg_compound_score := listMean (windowSlice scores i w) }) :=
  detect_negative_spike_core_eq scores w negThr minRatio

/-- Witness for C5 on the spec's example: a 10-item window with exactly 8 of
10 scores below -0.5 and a minimum ratio of 0.7 emits one Spike event. -/
theorem spike_detection_characterization_witness :
    detect_negative_spike_core
        [-3/5, -3/5, -3/5, -3/5, -3/5, -3/5, -3/5, -3/5, 1/10, 1/10] 10 (-1/2) (7/10) =
      [{ alert_type := "Negative Spike Detected", severity := "High", start_index := 0,
         end_index := 9, negative_count := 8, negative_ratio := 4/5,
         avg_compound_score := -23/50 }] := by
  rw [spike_detection_characterization _ 10 (-1/2) (7/10) (by norm_num)]
  norm_num [windowSlice, listMean, List.range_succ]

/-- The ranking key is total. -/
theorem rowLE_total : ∀ a b : EmailRow, rowLE a b || rowLE b a := by
  intro a b
  simp only [rowLE, Bool.or_eq_true, Bool.and_eq_true, decide_eq_true_eq]
  omega

/-- The ranking key is transitive. -/
theorem rowLE_trans : ∀ a b c : EmailRow, rowLE a b → rowLE b c → rowLE a c := by
  intro a b c hab hbc
  simp only [rowLE, Bool.or_eq_true, Bool.and_eq_true, decide_eq_true_eq] at hab hbc ⊢
  omega

/-- C2: ranks are assigned densely as exactly 1..N over the sorted batch (no
duplicates, no gaps); among the sorted records, equal score with an earlier
timestamp means a strictly smaller position, hence a smaller rank; and the
sort is stable: its output equals the fully deterministic sort whose key
breaks full-key ties by original ingestion position, so no two records can
share a rank. -/
theorem ranking_dense_and_deterministic (rows : List EmailRow) :
    ((rankResults rows).map Prod.snd = List.range' 1 rows.length) ∧
    (∀ (i j : Nat) (hi : i < (sortResults rows).length) (hj : j < (sortResults rows).length),
      ((sortResults rows).get ⟨i, hi⟩).urgency_score =
          ((sortResults rows).get ⟨j, hj⟩).urgency_score →
      ((sortResults rows).get ⟨i, hi⟩).timestamp < ((sortResults rows).get ⟨j, hj⟩).timestamp →
      i < j) ∧
    (sortResults rows = (List.mergeSort rows.enum (List.enumLE rowLE)).map Prod.snd) := by
  refine ⟨?_, ?_, ?_⟩
  · apply List.map_snd_zip
    simp [sortResults]
  · intro i j hi hj hsc hts
    rcases Nat.lt_trichotomy i j with h | h | h
    · exact h
    · subst h
      exact absurd hts (lt_irrefl _)
    · exfalso
      have hp : (sortResults rows).Pairwise (fun a b => rowLE a b) := by
        simpa [sortResults] using List.sorted_mergeSort rowLE_trans rowLE_total rows
      have hji := List.pairwise_iff_get.mp hp ⟨j, hj⟩ ⟨i, hi⟩ h
      simp only [rowLE, Bool.or_eq_true, Bool.and_eq_true, decide_eq_true_eq] at hji
      omega
  · exact (List.mergeSort_enum).symm

/-- Witness for C2 on `demoRows`: the ranks are exactly 1..3, and among the
two tied-score rows the earlier timestamp sorts strictly earlier. -/
theorem ranking_dense_and_deterministic_witness :
    (rankResults demoRows).map Prod.snd = List.range' 1 demoRows.length ∧ (1 : Nat) < 2 := by
  have hs : sortResults demoRows = demoRows := List.mergeSort_of_sorted (by decide)
  have h1 : 1 < (sortResults demoRows).length := by rw [hs]; decide
  have h2 : 2 < (sortResults demoRows).length := by rw [hs]; decide
  refine ⟨(ranking_dense_and_deterministic demoRows).1,
    (ranking_dense_and_deterministic demoRows).2.1 1 2 h1 h2 ?_ ?_⟩
  · rw [List.get_of_eq hs ⟨1, h1⟩, List.get_of_eq hs ⟨2, h2⟩]
    simp [demoRows]
  · rw [List.get_of_eq hs ⟨1, h1⟩, List.get_of_eq hs ⟨2, h2⟩]
    simp [demoRows]

/-- C7 counterexample: constructing the engine with an inverted tier-threshold
table does not fail — it returns a state holding the table unchanged, and
classification with that table still proceeds at scoring time (score 12 is
classified "Critical" under the inverted bounds).  No ConfigurationError
exists anywhere in the source and `__init__` contains no validation. -/
theorem constructor_accepts_invalid_thresholds :
    UrgencyDetector.initWith invertedThresholds = ⟨invertedThresholds⟩ ∧
    classify_urgency_level invertedThresholds 12 = "Critical" :=
  ⟨rfl, by decide⟩

/-- C7 (amended): engine construction performs no threshold validation — for
every threshold table, valid or not, it succeeds and stores the table
unchanged (the source instantiates it only with `URGENCY_THRESHOLDS`), and
classification is total, returning one of the four tiers for every table and
score; nothing fails at construction or at scoring/classification time. -/
theorem constructor_never_validates (t : UrgencyThresholds) (score : Nat) :
    UrgencyDetector.initWith t = ⟨t⟩ ∧
    UrgencyDetector.init.thresholds = URGENCY_THRESHOLDS ∧
    (classify_urgency_level t score = "Critical" ∨
     classify_urgency_level t score = "High" ∨
     classify_urgency_level t score = "Medium" ∨
     classify_urgency_level t score = "Low") := by
  refine ⟨rfl, rfl, ?_⟩
  unfold classify_urgency_level
  split_ifs <;> simp

/-- C8 counterexample: with the timestamp column missing, drop-detection over
a 10-row score column returns the empty list (a silent degrade, not an
error), and ranking returns `None` through its generic exception handler —
neither path raises a MissingFieldError, a type that does not exist in the
source. -/
theorem missing_timestamp_silent_results :
    detect_sentiment_drop ⟨some [0, 0, 0, 0, 0, 0, 0, 0, 0, 0], none, none, none⟩ (3/10)
        = [] ∧
    save_results false [⟨50, 0⟩] = none :=
  ⟨rfl, rfl⟩

/-- C8 (amended): when the timestamp column is missing, drop-detection
silently returns an empty alert list for every score column and threshold,
and `save_results` returns `None` (its `except Exception` handler catches the
missing-column KeyError from `sort_values`) rather than raising a
MissingFieldError. -/
theorem missing_timestamp_behavior (sc : Option (List ℚ)) (p s : Option (List String))
    (thr : ℚ) (rows : List EmailRow) :
    detect_sentiment_drop ⟨sc, none, p, s⟩ thr = [] ∧ save_results false rows = none := by
  refine ⟨?_, rfl⟩
  cases sc <;> rfl

/-- A slice `[a, a+5)` of the rolling-average column that reaches a position
`a + k ≥ 4` inside the column holds at least one defined entry. -/
theorem rollingMean_slice_ne_nil (scores : List ℚ) (a k : Nat) (hk : k < 5)
    (hlen : a + k < scores.length) (hdef : 4 ≤ a + k) :
    (((rollingMean scores 5).drop a).take 5).filterMap id ≠ [] := by
  have h5 : 5 ≤ a + k + 1 := by omega
  have hq : ((((rollingMean scores 5).drop a).take 5))[k]? =
      some (some (listMean ((scores.drop (a + k + 1 - 5)).take 5))) := by
    rw [List.getElem?_take_of_lt hk, List.getElem?_drop]
    simp [rollingMean, List.getElem?_range, hlen, h5]
    omega
  exact List.ne_nil_of_mem (List.mem_filterMap.mpr ⟨_, List.getElem?_mem hq, rfl⟩)

/-- `nanMean` of a slice with at least one defined entry is the mean of the
defined entries. -/
theorem nanMean_eq_some {l : List (Option ℚ)} (h : l.filterMap id ≠ []) :
    nanMean l = some (listMean (l.filterMap id)) := by
  simp only [nanMean]
  rw [if_neg]
  simpa using h

/-- When both slice means are defined, the loop body appends exactly when the
drop reaches the threshold. -/
theorem dropEmit_eq_ite {df : List (ℚ × ℚ)} {ravg : List (Option ℚ)} {thr : ℚ}
    {alerts : List DropAlert} {i : Nat} {p c : ℚ}
    (hprev : nanMean ((ravg.drop (i - 5)).take 5) = some p)
    (hcurr : nanMean ((ravg.drop i).take 5) = some c) :
    dropEmit df ravg thr alerts i =
      if thr ≤ p - c then
        alerts ++ [{ alert_type := "Sentiment Drop Detected", severity := "Medium",
                     timestamp := (df.getD i (0, 0)).1,
                     previous_avg := p, current_avg := c, drop_magnitude := p - c }]
      else alerts := by
  simp only [dropEmit, hprev, hcurr]

/-- C6: drop-detection returns an empty list, not an error, on fewer than
`2 * window = 10` points; otherwise, over the time-sorted series it emits,
for each index `i` from `window` to `N-window-1`, exactly one Drop event if
and only if the mean of the (defined) rolling averages over `[i-window, i)`
minus the mean over `[i, i+window)` reaches `drop_threshold`, the event
carrying both averages and the magnitude. -/
theorem drop_detection_characterization (series : List (ℚ × ℚ)) (thr : ℚ) :
    (series.length < 10 → detect_sentiment_drop_core series thr = []) ∧
    (10 ≤ series.length →
      detect_sentiment_drop_core series thr =
        ((List.range' 5 (series.length - 10)).filter
            (fun i => decide (thr ≤ prevRollAvg series i - currRollAvg series i))).map
          (fun i =>
            { alert_type := "Sentiment Drop Detected", severity := "Medium",
              timestamp := ((timeSorted series).getD i (0, 0)).1,
              previous_avg := prevRollAvg series i,
              current_avg := currRollAvg series i,
              drop_magnitude := prevRollAvg series i - currRollAvg series i })) := by
  have hlen : (timeSorted series).length = series.length := by
    simp [timeSorted]
  have hslen : ((timeSorted series).map Prod.snd).length = series.length := by
    simp [hlen]
  constructor
  · intro h
    simp only [detect_sentiment_drop_core]
    rw [if_pos (by omega)]
  · intro h10
    simp only [detect_sentiment_drop_core]
    rw [if_neg (by omega)]
    rw [List.foldl_ext (dropEmit (timeSorted series)
          (rollingMean ((timeSorted series).map Prod.snd) 5) thr)
        (fun alerts i =>
          if thr ≤ prevRollAvg series i - currRollAvg series i then
            alerts ++ [{ alert_type := "Sentiment Drop Detected", severity := "Medium",
                         timestamp := ((timeSorted series).getD i (0, 0)).1,
                         previous_avg := prevRollAvg series i,
                         current_avg := currRollAvg series i,
                         drop_magnitude := prevRollAvg series i - currRollAvg series i }]
          else alerts)
        [] ?hext]
    · rw [foldl_emit_eq_filter_map]
      rw [hlen, Nat.sub_sub]
      rfl
    · intro acc i hi
      rw [hlen] at hi
      rw [List.mem_range'_1] at hi
      have hprev : nanMean
          (((rollingMean ((timeSorted series).map Prod.snd) 5).drop (i - 5)).take 5) =
          some (prevRollAvg series i) := by
        apply nanMean_eq_some
        exact rollingMean_slice_ne_nil _ (i - 5) 4 (by omega) (by omega) (by omega)
      have hcurr : nanMean
          (((rollingMean ((timeSorted series).map Prod.snd) 5).drop i).take 5) =
          some (currRollAvg series i) := by
        apply nanMean_eq_some
        exact rollingMean_slice_ne_nil _ i 0 (by omega) (by omega) (by omega)
      exact dropEmit_eq_ite hprev hcurr

/-- Every alert built by the spike loop carries severity "High". -/
theorem spike_core_severity {scores : List ℚ} {w : Nat} {negThr minRatio : ℚ}
    {a : SpikeAlert} (ha : a ∈ detect_negative_spike_core scores w negThr minRatio) :
    a.severity = "High" := by
  rw [detect_negative_spike_core_eq] at ha
  obtain ⟨i, -, rfl⟩ := List.mem_map.mp ha
  rfl

/-- Every alert built by `detect_negative_spike` carries severity "High". -/
theorem detect_negative_spike_severity {df : SFrame} {ws : Option Nat} {cfg : AlertSettings}
    {a : SpikeAlert} (ha : a ∈ detect_negative_spike df ws cfg) : a.severity = "High" := by
  unfold detect_negative_spike at ha
  rcases hsc : df.compound_scores with _ | scores
  · rw [hsc] at ha
    cases ha
  · rw [hsc] at ha
    exact spike_core_severity ha

/-- Members collected by folding an append-or-keep step are in the initial
accumulator or satisfy the step's emission property. -/
theorem mem_foldl_of_step {ι α : Type _} {step : List α → ι → List α} {P : α → Prop}
    (hstep : ∀ (acc : List α) (i : ι) (a : α), a ∈ step acc i → a ∈ acc ∨ P a) :
    ∀ (l : List ι) (init : List α) (a : α), a ∈ l.foldl step init → a ∈ init ∨ P a := by
  intro l
  induction l with
  | nil => intro init a h; exact Or.inl h
  | cons j rest ih =>
    intro init a h
    rcases ih _ _ h with h' | hP
    · exact hstep _ _ _ h'
    · exact Or.inr hP

/-- The drop-detection loop body only appends alerts of severity "Medium". -/
theorem dropEmit_mem {df : List (ℚ × ℚ)} {ravg : List (Option ℚ)} {thr : ℚ}
    {acc : List DropAlert} {i : Nat} {a : DropAlert}
    (h : a ∈ dropEmit df ravg thr acc i) : a ∈ acc ∨ a.severity = "Medium" := by
  unfold dropEmit at h
  rcases hp : nanMean ((ravg.drop (i - 5)).take 5) with _ | p <;>
    rcases hc : nanMean ((ravg.drop i).take 5) with _ | c <;>
      simp only [hp, hc] at h
  · exact Or.inl h
  · exact Or.inl h
  · exact Or.inl h
  · split_ifs at h
    · rcases List.mem_append.mp h with h' | h'
      · exact Or.inl h'
      · rw [List.mem_singleton.mp h']
        exact Or.inr rfl
    · exact Or.inl h

/-- Every alert built by `detect_sentiment_drop` carries severity "Medium". -/
theorem detect_sentiment_drop_severity {df : SFrame} {thr : ℚ} {a : DropAlert}
    (ha : a ∈ detect_sentiment_drop df thr) : a.severity = "Medium" := by
  unfold detect_sentiment_drop at ha
  rcases hts : df.timestamps with _ | ts <;> rcases hsc : df.compound_scores with _ | sc <;>
    rw [hts, hsc] at ha
  · cases ha
  · cases ha
  · cases ha
  · replace ha : a ∈ detect_sentiment_drop_core (ts.zip sc) thr := ha
    simp only [detect_sentiment_drop_core] at ha
    split_ifs at ha
    · cases ha
    · rcases mem_foldl_of_step (fun acc i a h => dropEmit_mem h) _ _ _ ha with h' | h'
      · cases h'
      · exact h'

/-- Every alert built by `analyze_platform_alerts` carries severity "Medium". -/
theorem analyze_platform_alerts_severity {df : SFrame} {pct : ℚ} {a : PlatformAlert}
    (ha : a ∈ analyze_platform_alerts df pct) : a.severity = "Medium" := by
  unfold analyze_platform_alerts at ha
  rcases hps : df.platforms with _ | ps <;> rcases hss : df.sentiments with _ | ss <;>
    rw [hps, hss] at ha
  · cases ha
  · cases ha
  · cases ha
  · have hstep : ∀ (acc : List PlatformAlert) (platform : String) (a : PlatformAlert),
        a ∈ (fun alerts platform =>
          let platform_rows := (ps.zip ss).filter (fun r => decide (r.1 = platform))
          let total := platform_rows.length
          if total < 5 then alerts
          else
            let negative_count :=
              (platform_rows.filter (fun r => decide (r.2 = "Negative"))).length
            let negative_pct := (negative_count : ℚ) / total * 100
            if pct ≤ negative_pct then
              alerts ++ [{ alert_type := "Platform Alert", severity := "Medium",
                           platform := platform, negative_percentage := negative_pct,
                           negative_count := negative_count, total_count := total }]
            else alerts) acc platform →
          a ∈ acc ∨ a.severity = "Medium" := by
      intro acc platform a h
      dsimp only at h
      split_ifs at h
      · exact Or.inl h
      · rcases List.mem_append.mp h with h' | h'
        · exact Or.inl h'
        · rw [List.mem_singleton.mp h']
          exact Or.inr rfl
      · exact Or.inl h
    rcases mem_foldl_of_step hstep _ _ _ ha with h' | h'
    · cases h'
    · exact h'

/-- C9: every Spike event carries severity "High" while every Drop and every
platform SegmentAlert event carries severity "Medium"; consequently the
report's `has_critical_alerts` is true exactly when spike detection emitted
at least one alert for the batch. -/
theorem severity_and_critical_flag (df : SFrame) (cfg : AlertSettings) (ws : Option Nat)
    (thr pct : ℚ) :
    (∀ a ∈ detect_negative_spike df ws cfg, a.severity = "High") ∧
    (∀ a ∈ detect_sentiment_drop df thr, a.severity = "Medium") ∧
    (∀ a ∈ analyze_platform_alerts df pct, a.severity = "Medium") ∧
    ((generate_alert_report df cfg).has_critical_alerts = true ↔
      detect_negative_spike df none cfg ≠ []) := by
  refine ⟨fun a ha => detect_negative_spike_severity ha,
    fun a ha => detect_sentiment_drop_severity ha,
    fun a ha => analyze_platform_alerts_severity ha, ?_⟩
  simp only [generate_alert_report, List.any_append, Bool.or_eq_true, List.any_eq_true]
  constructor
  · intro h
    rcases h with (h | h) | h
    · obtain ⟨e, he, -⟩ := h
      obtain ⟨s, hs, rfl⟩ := List.mem_map.mp he
      exact List.ne_nil_of_mem hs
    · exfalso
      obtain ⟨e, he, hsev⟩ := h
      by_cases hts : df.timestamps.isSome
      · rw [if_pos hts] at he
        obtain ⟨d, hd, rfl⟩ := List.mem_map.mp he
        rw [show (AlertEvent.drop d).severity = d.severity from rfl,
          detect_sentiment_drop_severity hd] at hsev
        exact absurd hsev (by decide)
      · rw [if_neg hts] at he
        cases he
    · exfalso
      obtain ⟨e, he, hsev⟩ := h
      by_cases hps : df.platforms.isSome
      · rw [if_pos hps] at he
        obtain ⟨d, hd, rfl⟩ := List.mem_map.mp he
        rw [show (AlertEvent.platform d).severity = d.severity from rfl,
          analyze_platform_alerts_severity hd] at hsev
        exact absurd hsev (by decide)
      · rw [if_neg hps] at he
        cases he
  · intro hne
    obtain ⟨s, hs⟩ := List.exists_mem_of_ne_nil _ hne
    refine Or.inl (Or.inl ⟨AlertEvent.spike s, List.mem_map_of_mem _ hs, ?_⟩)
    rw [show (AlertEvent.spike s).severity = s.severity from rfl,
      detect_negative_spike_severity hs]
    rfl

/-- Witness for C6: a single point is below the `2 * window` minimum and
yields no alerts, and at exactly ten points the characterized index range
`range(5, N-5)` is empty, so the output is again empty. -/
theorem drop_detection_characterization_witness :
    detect_sentiment_drop_core [(0, 0)] (3/10) = [] ∧
    detect_sentiment_drop_core tenSeries (3/10) = [] := by
  refine ⟨(drop_detection_characterization [(0, 0)] (3/10)).1 (by decide), ?_⟩
  rw [(drop_detection_characterization tenSeries (3/10)).2 (by decide)]
  simp [tenSeries]

/-- Witness for C9: the demo spike alert is emitted and carries severity
"High", and the report critical flag equals spike non-emptiness. -/
theorem severity_and_critical_flag_witness :
    demoSpikeAlert.severity = "High" ∧
    ((generate_alert_report demoFrame demoSettings).has_critical_alerts = true ↔
      detect_negative_spike demoFrame none demoSettings ≠ []) := by
  have hs : detect_negative_spike demoFrame none demoSettings = [demoSpikeAlert] := by
    rw [show detect_negative_spike demoFrame none demoSettings =
        detect_negative_spike_core [-1] 1 0 0 from rfl, detect_negative_spike_core_eq]
    norm_num [windowSlice, listMean, List.range_succ, demoSpikeAlert]
  exact ⟨(severity_and_critical_flag demoFrame demoSettings none 0 0).1 demoSpikeAlert
      (by rw [hs]; exact List.mem_singleton_self _),
    (severity_and_critical_flag demoFrame demoSettings none 0 0).2.2.2⟩

/-- C10: a falsy override silently falls back to the configured default —
`detect_negative_spike` called with `window_size = 0` behaves exactly as when
called with no override (both use `config["spike_window"]`), and
`flag_high_priority_comments` called with `threshold = 0.0` behaves exactly
as with no override (both use `config["negative_threshold"]`); the
Python `or` coalescing maps both falsy values to the default. -/
theorem falsy_override_uses_default (df : SFrame) (cfg : AlertSettings)
    (n : Nat) (q : ℚ) :
    detect_negative_spike df (some 0) cfg = detect_negative_spike df none cfg ∧
    flag_high_priority_comments df (some 0) cfg =
      flag_high_priority_comments df none cfg ∧
    orDefaultNat (some 0) n = n ∧ orDefaultRat (some 0) q = q := by
  refine ⟨?_, ?_, rfl, rfl⟩ <;>
    simp [detect_negative_spike, flag_high_priority_comments, orDefaultNat, orDefaultRat]

end UrgencyDetection
